import Mathlib

/-!
Shallow embedding of the metadata-extraction core of the `st-board`
repository (files `src/storyboard/metadata.py` and the legacy
`metadata.py`), together with theorems settling the frozen claims.

Python floats are modelled as exact rationals (`ℚ`); machine integers as
`ℕ`/`ℤ`; raw JSON records become structures of `Option`-valued fields
(a missing key is `none`); a Python exception aborting a computation is
modelled by an `Option`/`Except` result.
-/

set_option maxRecDepth 8000

namespace Storyboard

/-- Python `int()` applied to a float: truncation toward zero.  For a
nonnegative rational this is the floor, for a negative one the ceiling. -/
def pyInt (q : ℚ) : ℤ := if 0 ≤ q then ⌊q⌋ else ⌈q⌉

/-- Round-half-to-even (banker's rounding), the rounding used by C `printf`
`%.Nf` on exactly representable ties and by Python 3 `round`. -/
def roundHalfEven (x : ℚ) : ℤ :=
  let f := ⌊x⌋
  let r := x - (f : ℚ)
  if r < 1/2 then f
  else if 1/2 < r then f + 1
  else if f % 2 = 0 then f else f + 1

/-- Pad a digit string on the left with zeros up to width `k`. -/
def padZeros (k : ℕ) (s : String) : String :=
  String.mk (List.replicate (k - s.length) '0') ++ s

/-- Python `"%.<prec>f" % q` for a nonnegative rational. -/
def fmtFixedCore (prec : ℕ) (q : ℚ) : String :=
  let n := (roundHalfEven (q * (10 : ℚ) ^ prec)).toNat
  let ip := n / 10 ^ prec
  let fp := n % 10 ^ prec
  toString ip ++ "." ++ padZeros prec (toString fp)

/-- Python `"%.<prec>f" % q` (the value is exact here, where CPython
formats the nearest binary double; the claims only exercise inputs on
which the two agree). -/
def fmtFixed (prec : ℕ) (q : ℚ) : String :=
  if q < 0 then "-" ++ fmtFixedCore prec (-q) else fmtFixedCore prec q

/-- `Video._extract_size` of the legacy `metadata.py` (lines 66-75): binary
scaling loop over the unit list, with the `for`/`else` fallback to `Yi`. -/
def humansizeAux : ℚ → List String → String
  | tmp, [] => fmtFixed 1 tmp ++ "YiB"
  | tmp, u :: rest =>
    if tmp < 1024 then fmtFixed 1 tmp ++ u ++ "B"
    else humansizeAux (tmp / 1024) rest

/-- The unit list traversed by the size-humanization loop. -/
def humansize_units : List String := ["", "Ki", "Mi", "Gi", "Ti", "Pi", "Ei", "Zi"]

/-- Human-readable byte size (`Video._extract_size`, legacy `metadata.py`). -/
def humansize (size : ℕ) : String := humansizeAux (size : ℚ) humansize_units

/-- `Video._extract_duration` of the legacy `metadata.py` (lines 77-83):
`HH:MM:SS.ss` rendering, hours unbounded. -/
def humantime (t : ℚ) : String :=
  let it := pyInt t
  let hh := Int.fdiv it 3600
  let mm := (Int.fdiv it 60) % 60
  let ss := t - ((Int.fdiv it 60) * 60 : ℤ)
  padZeros 2 (toString hh) ++ ":" ++ padZeros 2 (toString mm) ++ ":" ++
    padZeros 5 (fmtFixed 2 ss)

/-- Split a character list at every occurrence of `sep` (the semantics of
Python `str.split(sep)` / Lean `String.splitOn`, restated structurally so
that it evaluates by kernel reduction). -/
def splitOnChar (sep : Char) : List Char → List (List Char)
  | [] => [[]]
  | c :: cs =>
    match splitOnChar sep cs with
    | [] => if c = sep then [[], []] else [[c]]
    | h :: t => if c = sep then [] :: h :: t else (c :: h) :: t

/-- Parse a nonempty all-digit character list as a natural number
(Python `int()` on a plain decimal string). -/
def parseNat? (cs : List Char) : Option ℕ :=
  match cs with
  | [] => none
  | _ =>
    cs.foldl
      (fun acc c =>
        match acc with
        | some a => if 48 ≤ c.toNat ∧ c.toNat ≤ 57 then some (a * 10 + (c.toNat - 48)) else none
        | none => none)
      (some 0)

/-- Modelled from the spec: `storyboard.util.evaluate_ratio` is imported by
`src/storyboard/metadata.py` but `util.py` is not under `src/`.  Spec §4.4:
"parses `\"N/D\"` or a bare number into a float; D=0 → error propagated to
caller as unparseable, not a crash", and §4.1: a DAR ratio may also be
written `numerator:denominator`.  `none` models the unparseable outcome. -/
def evaluate_ratio (s : String) : Option ℚ :=
  match splitOnChar '/' s.data with
  | [n, d] =>
    match parseNat? n, parseNat? d with
    | some nv, some dv => if dv = 0 then none else some ((nv : ℚ) / (dv : ℚ))
    | _, _ => none
  | [w] =>
    match splitOnChar ':' w with
    | [n, d] =>
      match parseNat? n, parseNat? d with
      | some nv, some dv => if dv = 0 then none else some ((nv : ℚ) / (dv : ℚ))
      | _, _ => none
    | [x] => (parseNat? x).map (fun k => ((k : ℕ) : ℚ))
    | _ => none
  | _ => none

/-- Python `str.strip()`: drop leading and trailing whitespace. -/
def pySpace (c : Char) : Bool :=
  c == ' ' || c == '\t' || c == '\n' || c == '\x0d' || c.toNat == 11 || c.toNat == 12

/-- Python `str.strip()` on a string. -/
def pyStrip (s : String) : String :=
  String.mk (((s.data.dropWhile pySpace).reverse.dropWhile pySpace).reverse)

/-- Python `sep.join(lines)` (structural restatement of `String.intercalate`). -/
def joinSep (sep : String) : List String → String
  | [] => ""
  | [x] => x
  | x :: xs => x ++ sep ++ joinSep sep xs

/-- Tag dictionary of a raw ffprobe stream record, as far as the source
reads it (`language` then `LANGUAGE` key lookup). -/
structure RawTags where
  language : Option String
  LANGUAGE : Option String
deriving DecidableEq

/-- One raw ffprobe stream record.  Each optional JSON key is an `Option`
field; `index` is required (the source reads `stream_dict['index']`
unconditionally).  `bit_rate` and `level` hold the already-parsed numeric
values of the corresponding JSON fields. -/
structure RawStream where
  index : ℕ
  codec_type : Option String
  codec_name : Option String
  codec_long_name : Option String
  profile : Option String
  level : Option ℤ
  width : Option ℕ
  height : Option ℕ
  display_aspect_ratio : Option String
  r_frame_rate : Option String
  avg_frame_rate : Option String
  bit_rate : Option ℚ
  tags : Option RawTags
  codec_tag_string : Option String
deriving DecidableEq

/-- The in-house `Stream` object of `src/storyboard/metadata.py`.  The
source initializes every attribute to `None` in `Stream.__init__` and then
fills some of them in; `index` is always overwritten by
`_process_stream`, so it is kept as a plain `ℕ` (0 until then). -/
structure Stream where
  index : ℕ
  type : Option String
  codec : Option String
  bit_rate : Option ℚ
  bit_rate_text : Option String
  language_code : Option String
  width : Option ℕ
  height : Option ℕ
  dimension : Option (ℕ × ℕ)
  dimension_text : Option String
  frame_rate : Option ℚ
  frame_rate_text : Option String
  dar : Option ℚ
  dar_text : Option String
  info_string : Option String
deriving DecidableEq

/-- A `Stream` as built by `Stream.__init__`: everything unset. -/
def Stream.init : Stream :=
  ⟨0, none, none, none, none, none, none, none, none, none, none, none, none, none, none⟩

/-- The container-level mirror attributes of `Video` that
`_process_video_stream` fills in on a first-video-stream-wins basis. -/
structure VideoMirrors where
  dimension : Option (ℕ × ℕ)
  dimension_text : Option String
  dar : Option ℚ
  dar_text : Option String
  frame_rate : Option ℚ
  frame_rate_text : Option String
deriving DecidableEq

/-- The mirror attributes as initialized in `Video.__init__`: all `None`. -/
def initMirrors : VideoMirrors := ⟨none, none, none, none, none, none⟩

/-- Codec label resolution of `_process_video_stream` (lines 817-841).
`none` models the `KeyError` on a missing `codec_long_name` in the final
fallback branch. -/
def video_codec (sdict : RawStream) : Option String :=
  match sdict.codec_name with
  | none => some ("unknown codec")
  | some cn =>
    if cn = "h264" then
      match sdict.profile, sdict.level with
      | some p, some l =>
        some ("H.264 (" ++ p ++ " Profile level " ++ fmtFixed 1 ((l : ℚ) / 10) ++ ")")
      | _, _ => some ("H.264")
    else if cn = "mpeg2video" then
      match sdict.profile with
      | some p => some ("MPEG-2 video (" ++ p ++ " Profile)")
      | none => some ("MPEG-2 video")
    else if cn = "mpeg4" then
      match sdict.profile with
      | some p => some ("MPEG-4 Part 2 (" ++ p ++ ")")
      | none => some ("MPEG-4 Part 2")
    else if cn = "mjpeg" then some ("MJPEG")
    else if cn = "theora" then some ("Theora")
    else sdict.codec_long_name

/-- The geometric DAR fallback of `_process_video_stream` (lines 859-863):
reduce width and height by their gcd.  When `h = 0` the source raises
`ZeroDivisionError` (at `width // gcd` if also `w = 0`, at the final
float division otherwise), modelled by `none`; for `h > 0` the reduced
height is positive and no error can occur. -/
def dar_fallback (w h : ℕ) : Option (ℚ × String) :=
  if h = 0 then none
  else
    let g := Nat.gcd w h
    some ((((w / g : ℕ) : ℚ)) / (((h / g : ℕ) : ℚ)),
      toString (w / g) ++ ":" ++ toString (h / g))

/-- DAR resolution of `_process_video_stream` (lines 853-863): prefer the
record's `display_aspect_ratio` string (whose raw text becomes `dar_text`),
fall back to gcd reduction of width and height. -/
def video_dar (sdict : RawStream) (w h : ℕ) : Option (ℚ × String) :=
  match sdict.display_aspect_ratio with
  | some dstr =>
    match evaluate_ratio dstr with
    | some d => some (d, dstr)
    | none => dar_fallback w h
  | none => dar_fallback w h

/-- Frame-rate resolution of `_process_video_stream` (lines 869-875):
`r_frame_rate` first, then `avg_frame_rate`, else null. -/
def video_frame_rate (sdict : RawStream) : Option ℚ :=
  match sdict.r_frame_rate with
  | some s => evaluate_ratio s
  | none =>
    match sdict.avg_frame_rate with
    | some s => evaluate_ratio s
    | none => none

/-- Frame-rate text rendering of `_process_video_stream` (lines 877-884):
`'%d fps' % int(fps)` when `abs(fps - int(fps)) < 0.0001`, else
`'%.2f fps' % fps`. -/
def fps_text (fps : ℚ) : String :=
  if |fps - (pyInt fps : ℚ)| < 1 / 10000 then toString (pyInt fps) ++ " fps"
  else fmtFixed 2 fps ++ " fps"

/-- Bit-rate fields of a stream record (lines 892-897):
`'%d kb/s' % int(round(bit_rate / 1000))`. -/
def bit_rate_pair (sdict : RawStream) : Option ℚ × Option String :=
  match sdict.bit_rate with
  | some b => (some b, some (toString (roundHalfEven (b / 1000)) ++ " kb/s"))
  | none => (none, none)

/-- `Video._process_video_stream` (lines 784-907).  Returns the parsed
`Stream` together with the updated container mirrors; `none` models an
uncaught Python exception (missing `width`/`height`/`codec_long_name`
key, or `ZeroDivisionError` in the DAR fallback).  The three mirror
blocks of the source run in sequence but each is guarded by its own
field only, so they are assembled in one record here. -/
def process_video_stream (self : VideoMirrors) (sdict : RawStream) :
    Option (Stream × VideoMirrors) :=
  if sdict.codec_type = some ("video") then
    match video_codec sdict, sdict.width, sdict.height with
    | some codec, some w, some h =>
      match video_dar sdict w h with
      | none => none
      | some darp =>
        let dim := (w, h)
        let dimText := toString w ++ "x" ++ toString h
        let fr := video_frame_rate sdict
        let frText := Option.map fps_text fr
        let brp := bit_rate_pair sdict
        let info0 := "Video, " ++ codec ++ ", " ++ dimText ++ " (DAR " ++ darp.2 ++ ")"
        let info1 :=
          match frText with
          | some t => if t = "" then info0 else info0 ++ ", " ++ t
          | none => info0
        let info2 :=
          match brp.2 with
          | some t => if t = "" then info1 else info1 ++ ", " ++ t
          | none => info1
        some
          ({ Stream.init with
              type := some ("video"), codec := some codec,
              width := some w, height := some h,
              dimension := some dim, dimension_text := some dimText,
              dar := some darp.1, dar_text := some darp.2,
              frame_rate := fr, frame_rate_text := frText,
              bit_rate := brp.1, bit_rate_text := brp.2,
              info_string := some info2 },
            { dimension := if self.dimension = none then some dim else self.dimension,
              dimension_text := if self.dimension = none then some dimText else self.dimension_text,
              dar := if self.dar = none then some darp.1 else self.dar,
              dar_text := if self.dar = none then some darp.2 else self.dar_text,
              frame_rate := if self.frame_rate = none then fr else self.frame_rate,
              frame_rate_text := if self.frame_rate = none then frText else self.frame_rate_text })
    | _, _, _ => none
  else none

/-- Language lookup shared by the audio and subtitle branches
(`language` key first, then `LANGUAGE`). -/
def stream_language (sdict : RawStream) : Option String :=
  match sdict.tags with
  | none => none
  | some t =>
    match t.language with
    | some l => some l
    | none => t.LANGUAGE

/-- Codec label resolution of `_process_audio_stream` (lines 938-957). -/
def audio_codec (sdict : RawStream) : Option String :=
  match sdict.codec_name with
  | none => some ("unknown codec")
  | some cn =>
    if cn = "aac" then
      match sdict.profile with
      | some p => some ("AAC (" ++ (if p = "LC" then "Low Complexity" else p) ++ ")")
      | none => some ("AAC")
    else if cn = "ac3" then some ("Dolby AC-3")
    else if cn = "mp3" then some ("MP3")
    else if cn = "vorbis" then some ("Vorbis")
    else sdict.codec_long_name

/-- `Video._process_audio_stream` (lines 909-982). -/
def process_audio_stream (sdict : RawStream) : Option Stream :=
  if sdict.codec_type = some ("audio") then
    match audio_codec sdict with
    | none => none
    | some codec =>
      let brp := bit_rate_pair sdict
      let lang := stream_language sdict
      let info0 :=
        match lang with
        | some lc => if lc = "" then "Audio, " ++ codec else "Audio (" ++ lc ++ "), " ++ codec
        | none => "Audio, " ++ codec
      let info1 :=
        match brp.2 with
        | some t => if t = "" then info0 else info0 ++ ", " ++ t
        | none => info0
      some
        { Stream.init with
            type := some ("audio"), codec := some codec,
            bit_rate := brp.1, bit_rate_text := brp.2,
            language_code := lang, info_string := some info1 }
  else none

/-- Codec label resolution of `_process_subtitle_stream` (lines 1013-1026). -/
def subtitle_codec (sdict : RawStream) : Option String :=
  match sdict.codec_name with
  | none =>
    match sdict.codec_tag_string with
    | some t => if t = "c608" then some ("EIA-608") else some ("unknown codec")
    | none => some ("unknown codec")
  | some cn =>
    if cn = "srt" then some ("SubRip")
    else if cn = "ass" then some ("ASS")
    else if cn = "cc_dec" then some ("closed caption (EIA-608 / CEA-708)")
    else sdict.codec_long_name

/-- `Video._process_subtitle_stream` (lines 984-1041). -/
def process_subtitle_stream (sdict : RawStream) : Option Stream :=
  if sdict.codec_type = some ("subtitle") then
    match subtitle_codec sdict with
    | none => none
    | some codec =>
      let lang := stream_language sdict
      let info :=
        match lang with
        | some lc =>
          if lc = "" then "Subtitle, " ++ codec else "Subtitle (" ++ lc ++ "), " ++ codec
        | none => "Subtitle, " ++ codec
      some
        { Stream.init with
            type := some ("subtitle"), codec := some codec,
            language_code := lang, info_string := some info }
  else none

/-- `Video._process_stream` (lines 735-782): dispatch on `codec_type`,
then set the stream's `index` from the record. -/
def process_stream (self : VideoMirrors) (sdict : RawStream) :
    Option (Stream × VideoMirrors) :=
  match sdict.codec_type with
  | none =>
    some ({ Stream.init with
              type := some ("unknown"), info_string := some ("Data"),
              index := sdict.index }, self)
  | some ct =>
    if ct = "video" then
      match process_video_stream self sdict with
      | some (s, m) => some ({ s with index := sdict.index }, m)
      | none => none
    else if ct = "audio" then
      match process_audio_stream sdict with
      | some s => some ({ s with index := sdict.index }, self)
      | none => none
    else if ct = "subtitle" then
      match process_subtitle_stream sdict with
      | some s => some ({ s with index := sdict.index }, self)
      | none => none
    else
      some ({ Stream.init with
                type := some ct, info_string := some ("Data"),
                index := sdict.index }, self)

/-- `Video._process_streams` (lines 725-733): process the records in
probe order, threading the container mirrors. -/
def process_streams (self : VideoMirrors) : List RawStream → Option (List Stream × VideoMirrors)
  | [] => some ([], self)
  | r :: rs =>
    match process_stream self r with
    | none => none
    | some (s, m1) =>
      match process_streams m1 rs with
      | none => none
      | some (ss, m2) => some (s :: ss, m2)

/-- One parsed frame object of the `-show_frames` probe stream, as far as
`_get_scan_type` reads it: the optional `interlaced_frame` integer. -/
structure Frame where
  interlaced_frame : Option ℤ
deriving DecidableEq

/-- The contribution of one frame object to the interlaced counter
(lines 710-712): the value of `interlaced_frame` if the key is present,
else nothing is added. -/
def interlaced_contrib (f : Frame) : ℤ :=
  match f.interlaced_frame with
  | some v => v
  | none => 0

/-- `num_interlaced` accumulation of `_get_scan_type` (lines 709-712). -/
def num_interlaced (frames : List Frame) : ℤ :=
  (frames.map interlaced_contrib).sum

/-- Classification part of `Video._get_scan_type` (lines 701-723), taking
the list of frame objects collected by the sampling loop (which collects
at most 40 of them). -/
def get_scan_type (objs : List Frame) : Option String :=
  if objs.length < 40 then none
  else
    let n := num_interlaced (objs.drop 20)
    if n = 0 then some ("Progressive scan")
    else if n = 20 then some ("Interlaced scan")
    else if n = 8 then some ("Telecined video")
    else some ("Interlaced scan")

/-- Tag dictionary of the raw ffprobe format record (`.format.tags`). -/
structure FormatTags where
  title : Option String
deriving DecidableEq

/-- The raw ffprobe format record.  `format_name` is read unconditionally
by the source; `size` and `duration` are optional keys holding the
numeric values their strings parse to. -/
structure RawFormat where
  format_name : String
  tags : Option FormatTags
  size : Option ℕ
  duration : Option ℚ
deriving DecidableEq

/-- Parsed ffprobe output: one format record plus the stream records in
probe-reported order. -/
structure ProbeOutput where
  format : RawFormat
  streams : List RawStream
deriving DecidableEq

/-- `Video._get_title` (lines 431-452). -/
def get_title (f : RawFormat) : Option String :=
  match f.tags with
  | some t => t.title
  | none => none

/-- `Video._get_format` (lines 454-513).  `extension` is the file's
extension, lower-cased with the period stripped
(`os.path.splitext(path)[1].lower()[1:]`). -/
def get_format (format_name : String) (extension : String) : String :=
  if format_name = "mpegts" then "MPEG transport stream"
  else if format_name = "mpeg" then "MPEG program stream"
  else if format_name = "mov,mp4,m4a,3gp,3g2,mj2" then
    if extension = "mov" ∨ extension = "qt" then "QuickTime movie"
    else if extension = "3gp" then "3GPP"
    else if extension = "3g2" then "3GPP2"
    else if extension = "mj2" ∨ extension = "mjp2" then "Motion JPEG 2000"
    else "MPEG-4 Part 14 (" ++ extension.toUpper ++ ")"
  else if format_name = "mpegvideo" then "MPEG video"
  else if format_name = "matroska,webm" then
    if extension = "webm" then "WebM" else "Matroska"
  else if format_name = "flv" then "Flash video"
  else if format_name = "ogg" then "Ogg"
  else if format_name = "avi" then "Audio Video Interleaved"
  else if format_name = "asf" then "Advanced Systems Format"
  else extension.toUpper

/-- The error taxonomy of the spec (§7) relevant to parsed probe output:
`MetadataError` is raised when the output lacks structurally required
fields.  In the source the failure is an uncaught exception aborting
`Video.__init__`; here it is an `Except.error`. -/
inductive MError where
  | MetadataError : String → MError
deriving DecidableEq

/-- `Video._get_size` (lines 515-529): `int(format['size'])` plus the
human-readable rendering; a missing key aborts construction. -/
def get_size (f : RawFormat) : Except MError (ℕ × String) :=
  match f.size with
  | some n => Except.ok (n, humansize n)
  | none => Except.error (MError.MetadataError ("size"))

/-- `Video._get_duration` (lines 531-545): `float(format['duration'])`
plus the human-readable rendering; a missing key aborts construction. -/
def get_duration (f : RawFormat) : Except MError (ℚ × String) :=
  match f.duration with
  | some d => Except.ok (d, humantime d)
  | none => Except.error (MError.MetadataError ("duration"))

/-- The fully constructed `Video` object (its pure metadata content).
`sha1sum` holds the digest value that the lazy checksum computation
would produce; path handling and hashing are external collaborators. -/
structure VideoMeta where
  title : Option String
  filename : String
  format : String
  size : ℕ
  size_text : String
  duration : ℚ
  duration_text : String
  sha1sum : String
  scan_type : Option String
  dimension : Option (ℕ × ℕ)
  dimension_text : Option String
  dar : Option ℚ
  dar_text : Option String
  frame_rate : Option ℚ
  frame_rate_text : Option String
  streams : List Stream
deriving DecidableEq

/-- `Video.__init__` (lines 201-258) from the point where the probe
output is available: title, container format, size, duration, stream
processing, then scan-type detection only if some stream is video-typed.
`frames` is the frame-object list the scan-type sampler would collect. -/
def build_video (filename : String) (extension : String) (probe : ProbeOutput)
    (frames : List Frame) (sha1 : String) : Except MError VideoMeta := do
  let title := get_title probe.format
  let fmt := get_format probe.format.format_name extension
  let (size, size_text) ← get_size probe.format
  let (duration, duration_text) ← get_duration probe.format
  let (streams, m) ←
    match process_streams initMirrors probe.streams with
    | some p => Except.ok p
    | none => Except.error (MError.MetadataError ("stream"))
  let scan :=
    if streams.any (fun s => s.type == some ("video")) then get_scan_type frames
    else none
  Except.ok
    { title := title, filename := filename, format := fmt,
      size := size, size_text := size_text,
      duration := duration, duration_text := duration_text,
      sha1sum := sha1, scan_type := scan,
      dimension := m.dimension, dimension_text := m.dimension_text,
      dar := m.dar, dar_text := m.dar_text,
      frame_rate := m.frame_rate, frame_rate_text := m.frame_rate_text,
      streams := streams }

/-- Python `"%s" % x` for a nullable string: `None` prints as `"None"`. -/
def pyStr (o : Option String) : String :=
  match o with
  | some s => s
  | none => "None"

/-- The `if <nullable string field>: lines.append(...)` idiom of
`format_metadata`: the line is appended iff the field is truthy
(non-null and nonempty). -/
def pyOptLine (o : Option String) (pre : String) : List String :=
  match o with
  | some t => if t = "" then [] else [pre ++ t]
  | none => []

/-- The `if self.frame_rate: lines.append(...)` idiom of
`format_metadata`: the line is gated on the frame-rate **value** being
truthy (non-null and nonzero) while printing the frame-rate text. -/
def pyFrameLine (fr : Option ℚ) (frt : Option String) : List String :=
  match fr with
  | some q => if q = 0 then [] else ["Frame rate:             " ++ pyStr frt]
  | none => []

/-- The line list assembled by `Video.format_metadata` (lines 316-356).
Optional lines are guarded by Python truthiness: a null or empty title,
a null or empty text, a null or **zero** frame rate suppress their
lines. -/
def format_metadata_lines (v : VideoMeta) (include_sha1sum : Bool) : List String :=
  pyOptLine v.title ("Title:                  ")
  ++ ["Filename:               " ++ v.filename]
  ++ ["File size:              " ++ toString v.size ++ " (" ++ v.size_text ++ ")"]
  ++ (if include_sha1sum then ["SHA-1 digest:           " ++ v.sha1sum] else [])
  ++ ["Container format:       " ++ v.format]
  ++ ["Duration:               " ++ v.duration_text]
  ++ pyOptLine v.dimension_text ("Pixel dimensions:       ")
  ++ pyOptLine v.dar_text ("Display aspect ratio:   ")
  ++ pyOptLine v.scan_type ("Scan type:              ")
  ++ pyFrameLine v.frame_rate v.frame_rate_text
  ++ ["Streams:"]
  ++ v.streams.map (fun s => "    #" ++ toString s.index ++ ": " ++ pyStr s.info_string)

/-- `Video.format_metadata` (lines 260-356): join the lines with newlines
and `strip()` the result. -/
def format_metadata (v : VideoMeta) (include_sha1sum : Bool) : String :=
  pyStrip (joinSep ("\n") (format_metadata_lines v include_sha1sum))

/-- Video stream record with frame-rate string `0/0`, used to exhibit the
zero-denominator behaviour end to end. -/
def c5_rec : RawStream :=
  { index := 0, codec_type := some ("video"), codec_name := some ("mjpeg"),
    codec_long_name := none, profile := none, level := none,
    width := some 640, height := some 480, display_aspect_ratio := none,
    r_frame_rate := some ("0/0"), avg_frame_rate := none,
    bit_rate := none, tags := none, codec_tag_string := none }

/-- Probe output whose format record lacks the `size` key. -/
def c7_probe : ProbeOutput :=
  { format := { format_name := "flv", tags := none, size := none, duration := some 60 },
    streams := [] }

/-- Frame-object list witnessing C1: 40 frames of which 8 among the last
20 are flagged interlaced. -/
def c1_objs : List Frame :=
  List.replicate 32 ⟨some 0⟩ ++ List.replicate 8 ⟨some 1⟩

/-- The 20 junk-window frames of the C10 witness sample. -/
def c10_pre : List Frame := List.replicate 20 ⟨some 0⟩

/-- The 19 flagged frames following the flag-less frame in the C10
witness sample. -/
def c10_post : List Frame := List.replicate 19 ⟨some 1⟩

/-- Video stream record whose frame rate 499999/20000 = 24.99995 lies
within 1e-4 of its nearest integer 25 but above its integer part 24. -/
def c3_rec : RawStream :=
  { index := 0, codec_type := some ("video"), codec_name := some ("mjpeg"),
    codec_long_name := none, profile := none, level := none,
    width := some 640, height := some 480, display_aspect_ratio := none,
    r_frame_rate := some ("499999/20000"), avg_frame_rate := none,
    bit_rate := none, tags := none, codec_tag_string := none }

/-- Video stream record 1920x1080 with no `display_aspect_ratio` key. -/
def c8_rec : RawStream :=
  { index := 0, codec_type := some ("video"), codec_name := some ("mjpeg"),
    codec_long_name := none, profile := none, level := none,
    width := some 1920, height := some 1080, display_aspect_ratio := none,
    r_frame_rate := none, avg_frame_rate := none,
    bit_rate := none, tags := none, codec_tag_string := none }

/-- The field value of the first video-typed stream of `ss` on which
`proj` is non-null (the spec's "first video stream, in probe-reported
order, that supplies a non-null value for that field"). -/
def vfind {α : Type} (ss : List Stream) (proj : Stream → Option α) : Option α :=
  ss.findSome? (fun s => if s.type = some ("video") then proj s else none)

/-- Stream-record list witnessing C2: two video streams with different
dimensions and frame rates, an audio stream in between. -/
def c2_recs : List RawStream :=
  [{ index := 0, codec_type := some ("video"), codec_name := some ("mjpeg"),
     codec_long_name := none, profile := none, level := none,
     width := some 1280, height := some 720, display_aspect_ratio := none,
     r_frame_rate := some ("25/1"), avg_frame_rate := none,
     bit_rate := none, tags := none, codec_tag_string := none },
   { index := 1, codec_type := some ("audio"), codec_name := some ("mp3"),
     codec_long_name := none, profile := none, level := none,
     width := none, height := none, display_aspect_ratio := none,
     r_frame_rate := none, avg_frame_rate := none,
     bit_rate := some 128000, tags := none, codec_tag_string := none },
   { index := 2, codec_type := some ("video"), codec_name := some ("theora"),
     codec_long_name := none, profile := none, level := none,
     width := some 1920, height := some 1080, display_aspect_ratio := none,
     r_frame_rate := some ("30/1"), avg_frame_rate := none,
     bit_rate := none, tags := none, codec_tag_string := none }]

/-- The streams and mirrors produced from `c2_recs`. -/
def c2_pair : List Stream × VideoMirrors :=
  (process_streams initMirrors c2_recs).getD ([], initMirrors)

/-- Written from the claim C9's words (null-omission reading): one entry
per report field in the fixed order — title, filename, size, optional
checksum, format, duration, dimension, DAR, scan type, frame rate,
stream lines — where a field's line is omitted **exactly when the field
is null**, with trailing whitespace trimmed. -/
def report_lines_null (v : VideoMeta) (inc : Bool) : List String :=
  ([v.title.map (fun t => "Title:                  " ++ t),
    some ("Filename:               " ++ v.filename),
    some ("File size:              " ++ toString v.size ++ " (" ++ v.size_text ++ ")"),
    (if inc then some ("SHA-1 digest:           " ++ v.sha1sum) else none),
    some ("Container format:       " ++ v.format),
    some ("Duration:               " ++ v.duration_text),
    v.dimension_text.map (fun t => "Pixel dimensions:       " ++ t),
    v.dar_text.map (fun t => "Display aspect ratio:   " ++ t),
    v.scan_type.map (fun t => "Scan type:              " ++ t),
    v.frame_rate.map (fun _ => "Frame rate:             " ++ pyStr v.frame_rate_text),
    some ("Streams:")] : List (Option String)).reduceOption
  ++ v.streams.map (fun s => "    #" ++ toString s.index ++ ": " ++ pyStr s.info_string)

/-- The report under the claim's null-omission reading. -/
def report_null (v : VideoMeta) (inc : Bool) : String :=
  pyStrip (joinSep ("\n") (report_lines_null v inc))

/-- A line for a nullable text field, omitted when the field is null or
empty (Python falsy). -/
def optLineStr (o : Option String) (pre : String) : Option String :=
  match o with
  | some t => if t = "" then none else some (pre ++ t)
  | none => none

/-- The frame-rate line, omitted when the frame rate is null or zero
(Python falsy). -/
def optFrameLine (fr : Option ℚ) (frt : Option String) : Option String :=
  match fr with
  | some q => if q = 0 then none else some ("Frame rate:             " ++ pyStr frt)
  | none => none

/-- The report lines of C9 as amended: same fixed field order, but a
line is omitted when its gating value is null **or falsy** (empty title
or text, zero frame rate), matching Python truthiness. -/
def report_lines_falsy (v : VideoMeta) (inc : Bool) : List String :=
  ([optLineStr v.title ("Title:                  "),
    some ("Filename:               " ++ v.filename),
    some ("File size:              " ++ toString v.size ++ " (" ++ v.size_text ++ ")"),
    (if inc then some ("SHA-1 digest:           " ++ v.sha1sum) else none),
    some ("Container format:       " ++ v.format),
    some ("Duration:               " ++ v.duration_text),
    optLineStr v.dimension_text ("Pixel dimensions:       "),
    optLineStr v.dar_text ("Display aspect ratio:   "),
    optLineStr v.scan_type ("Scan type:              "),
    optFrameLine v.frame_rate v.frame_rate_text,
    some ("Streams:")] : List (Option String)).reduceOption
  ++ v.streams.map (fun s => "    #" ++ toString s.index ++ ": " ++ pyStr s.info_string)

/-- The report under the amended falsy-omission reading. -/
def report_falsy (v : VideoMeta) (inc : Bool) : String :=
  pyStrip (joinSep ("\n") (report_lines_falsy v inc))

/-- Probe output of a WebM file whose title tag is the empty string. -/
def c9_probe : ProbeOutput :=
  { format := { format_name := "matroska,webm", tags := some { title := some ("") },
                size := some 1024, duration := some 60 },
    streams := [] }

/-- The Video built from `c9_probe` (construction succeeds). -/
def c9_video : VideoMeta :=
  match build_video ("t.webm") ("webm") c9_probe [] ("0000") with
  | Except.ok v => v
  | Except.error _ =>
    ⟨none, "", "", 0, "", 0, "", "", none, none, none, none, none, none, none, []⟩

/-- Every run of the size-humanization loop divides by 1024 once per
consumed unit and stops on a unit of the extended list (`Yi` when the
list is exhausted). -/
lemma humansizeAux_spec (us : List String) (tmp : ℚ) :
    ∃ k, k ≤ us.length ∧
      humansizeAux tmp us =
        fmtFixed 1 (tmp / 1024 ^ k) ++ ((us ++ ["Yi"]).getD k ("") ++ "B") := by
  induction us generalizing tmp with
  | nil =>
    refine ⟨0, Nat.le_refl 0, ?_⟩
    rw [pow_zero, div_one]
    rfl
  | cons u rest ih =>
    by_cases h : tmp < 1024
    · refine ⟨0, Nat.zero_le _, ?_⟩
      rw [pow_zero, div_one]
      simp only [humansizeAux, if_pos h, List.cons_append, List.getD_cons_zero]
      exact String.append_assoc _ _ _
    · obtain ⟨k, hk, he⟩ := ih (tmp / 1024)
      refine ⟨k + 1, Nat.succ_le_succ hk, ?_⟩
      simp only [humansizeAux, if_neg h, he, div_div, List.cons_append, List.getD_cons_succ]
      rw [pow_succ']

/-- C6: for every byte count the human-readable size is obtained by
repeated division by 1024 with a unit from `"", Ki, ..., Yi` (never
beyond `Yi`), one decimal place, and a `B` suffix; in particular
`humansize 0 = "0.0B"`, `humansize 1024 = "1.0KiB"`,
`humansize 1536 = "1.5KiB"` and `humansize (1024^8) = "1.0YiB"`. -/
theorem humansize_spec :
    (∀ n : ℕ, ∃ k, k ≤ 8 ∧
        humansize n =
          fmtFixed 1 ((n : ℚ) / 1024 ^ k) ++
            ((["", "Ki", "Mi", "Gi", "Ti", "Pi", "Ei", "Zi", "Yi"].getD k ("")) ++ "B")) ∧
    humansize 0 = "0.0B" ∧ humansize 1024 = "1.0KiB" ∧
    humansize 1536 = "1.5KiB" ∧ humansize (1024 ^ 8) = "1.0YiB" := by
  refine ⟨fun n => ?_, by with_unfolding_all decide, by with_unfolding_all decide,
    by with_unfolding_all decide, by with_unfolding_all decide⟩
  obtain ⟨k, hk, he⟩ := humansizeAux_spec humansize_units (n : ℚ)
  exact ⟨k, hk, he⟩

/-- C4: the `mov,mp4,m4a,3gp,3g2,mj2` probe identifier branches on the
lower-cased, period-stripped extension into QuickTime/3GPP/3GPP2/MJ2000
or `MPEG-4 Part 14 (<EXT>)`; `matroska,webm` branches into WebM or
Matroska; an identifier outside the table falls back to the uppercased
extension. -/
theorem container_format_resolution (ext name : String)
    (hn : name ∉ (["mpegts", "mpeg", "mov,mp4,m4a,3gp,3g2,mj2", "mpegvideo",
      "matroska,webm", "flv", "ogg", "avi", "asf"] : List String)) :
    (get_format ("mov,mp4,m4a,3gp,3g2,mj2") ext =
      (if ext = "mov" ∨ ext = "qt" then "QuickTime movie"
       else if ext = "3gp" then "3GPP"
       else if ext = "3g2" then "3GPP2"
       else if ext = "mj2" ∨ ext = "mjp2" then "Motion JPEG 2000"
       else "MPEG-4 Part 14 (" ++ ext.toUpper ++ ")")) ∧
    (get_format ("matroska,webm") ext = (if ext = "webm" then "WebM" else "Matroska")) ∧
    get_format name ext = ext.toUpper := by
  simp only [List.mem_cons, List.not_mem_nil, or_false, not_or] at hn
  obtain ⟨h1, h2, h3, h4, h5, h6, h7, h8, h9⟩ := hn
  refine ⟨?_, ?_, ?_⟩
  · simp [get_format]
  · simp [get_format]
  · simp only [get_format]
    rw [if_neg h1, if_neg h2, if_neg h3, if_neg h4, if_neg h5, if_neg h6, if_neg h7,
      if_neg h8, if_neg h9]

/-- Witness for C4 at the unknown identifier `rm` with extension `rm`. -/
theorem container_format_resolution_witness :
    ("rm" ∉ (["mpegts", "mpeg", "mov,mp4,m4a,3gp,3g2,mj2", "mpegvideo",
      "matroska,webm", "flv", "ogg", "avi", "asf"] : List String)) ∧
    ((get_format ("mov,mp4,m4a,3gp,3g2,mj2") "rm" =
      (if ("rm" : String) = "mov" ∨ ("rm" : String) = "qt" then "QuickTime movie"
       else if ("rm" : String) = "3gp" then "3GPP"
       else if ("rm" : String) = "3g2" then "3GPP2"
       else if ("rm" : String) = "mj2" ∨ ("rm" : String) = "mjp2" then "Motion JPEG 2000"
       else "MPEG-4 Part 14 (" ++ ("rm" : String).toUpper ++ ")")) ∧
    (get_format ("matroska,webm") "rm" =
      (if ("rm" : String) = "webm" then "WebM" else "Matroska")) ∧
    get_format ("rm") ("rm") = ("rm" : String).toUpper) :=
  ⟨by decide, container_format_resolution ("rm") ("rm") (by decide)⟩

/-- C5: a rational frame-rate string with denominator zero evaluates to
null (`evaluate_ratio` returns `none` for any `"N/0"` split), and a video
stream carrying `r_frame_rate = "0/0"` is processed without error with a
null frame rate and null frame-rate text. -/
theorem zero_denominator_frame_rate :
    (∀ (s : String) (a b : List Char), splitOnChar '/' s.data = [a, b] →
       parseNat? b = some 0 → evaluate_ratio s = none) ∧
    evaluate_ratio ("0/0") = none ∧
    (process_video_stream initMirrors c5_rec).map
        (fun p => (p.1.frame_rate, p.1.frame_rate_text, p.1.info_string)) =
      some (none, none, some ("Video, MJPEG, 640x480 (DAR 4:3)")) := by
  refine ⟨?_, by with_unfolding_all rfl, by with_unfolding_all rfl⟩
  intro s a b hsplit hb
  unfold evaluate_ratio
  rw [hsplit]
  cases hpa : parseNat? a <;> simp [hpa, hb]

/-- Witness for C5 at the concrete string `"0/0"`. -/
theorem zero_denominator_frame_rate_witness :
    (splitOnChar '/' ("0/0").data = [['0'], ['0']] ∧ parseNat? ['0'] = some 0) ∧
    evaluate_ratio ("0/0") = none :=
  ⟨⟨by with_unfolding_all rfl, by with_unfolding_all rfl⟩,
    zero_denominator_frame_rate.1 ("0/0") ['0'] ['0']
      (by with_unfolding_all rfl) (by with_unfolding_all rfl)⟩

/-- C7: a format record lacking the `size` or the `duration` key makes
`Video` construction fail with a `MetadataError` instead of producing a
partial `Video`. -/
theorem missing_size_duration_fatal (fn ext sha : String) (probe : ProbeOutput)
    (frames : List Frame)
    (h : probe.format.size = none ∨ probe.format.duration = none) :
    ∃ w, build_video fn ext probe frames sha = Except.error (MError.MetadataError w) := by
  rcases hs : probe.format.size with _ | n
  · refine ⟨"size", ?_⟩
    have h1 : get_size probe.format = Except.error (MError.MetadataError ("size")) := by
      unfold get_size
      rw [hs]
    unfold build_video
    rw [h1]
    rfl
  · have hd : probe.format.duration = none := by
      rcases h with h | h
      · rw [hs] at h
        exact absurd h (by simp)
      · exact h
    refine ⟨"duration", ?_⟩
    have h1 : get_size probe.format = Except.ok (n, humansize n) := by
      unfold get_size
      rw [hs]
    have h2 : get_duration probe.format = Except.error (MError.MetadataError ("duration")) := by
      unfold get_duration
      rw [hd]
    unfold build_video
    rw [h1, h2]
    rfl

/-- Witness for C7 at a concrete format record with no `size` key. -/
theorem missing_size_duration_fatal_witness :
    (c7_probe.format.size = none ∨ c7_probe.format.duration = none) ∧
    ∃ w, build_video ("a.flv") ("flv") c7_probe [] ("") =
      Except.error (MError.MetadataError w) :=
  ⟨Or.inl rfl, missing_size_duration_fatal ("a.flv") ("flv") ("") c7_probe [] (Or.inl rfl)⟩

/-- When every frame's `interlaced_frame` value is absent, 0 or 1, the
accumulated interlaced sum equals the number of frames flagged 1. -/
lemma num_interlaced_eq_count (l : List Frame)
    (hf : ∀ f ∈ l, f.interlaced_frame = none ∨ f.interlaced_frame = some 0 ∨
      f.interlaced_frame = some 1) :
    num_interlaced l = (l.countP (fun f => f.interlaced_frame == some 1) : ℤ) := by
  induction l with
  | nil => simp [num_interlaced]
  | cons f t ih =>
    have hft := hf f (List.mem_cons_self f t)
    have ht : ∀ g ∈ t, g.interlaced_frame = none ∨ g.interlaced_frame = some 0 ∨
        g.interlaced_frame = some 1 :=
      fun g hg => hf g (List.mem_cons_of_mem f hg)
    have iht := ih ht
    simp only [num_interlaced, List.map_cons, List.sum_cons, List.countP_cons] at iht ⊢
    rcases hft with h | h | h <;>
      simp [interlaced_contrib, h, iht] <;> omega

/-- C1: with fewer than 40 collected frame objects the scan type is null;
with exactly 40 (the sampler's cap) the first 20 are discarded and the
count of interlaced-flagged frames among the remaining 20 classifies the
video: 0 → progressive, 20 → interlaced, 8 → telecined, anything else →
interlaced. -/
theorem scan_type_classification (objs : List Frame)
    (hf : ∀ f ∈ objs, f.interlaced_frame = none ∨ f.interlaced_frame = some 0 ∨
      f.interlaced_frame = some 1) :
    (objs.length < 40 → get_scan_type objs = none) ∧
    (objs.length = 40 →
      get_scan_type objs =
        some
          (if ((objs.drop 20).countP (fun f => f.interlaced_frame == some 1)) = 0 then
            "Progressive scan"
          else if ((objs.drop 20).countP (fun f => f.interlaced_frame == some 1)) = 20 then
            "Interlaced scan"
          else if ((objs.drop 20).countP (fun f => f.interlaced_frame == some 1)) = 8 then
            "Telecined video"
          else "Interlaced scan")) := by
  constructor
  · intro h
    unfold get_scan_type
    rw [if_pos h]
  · intro h
    have hd : ∀ f ∈ objs.drop 20, f.interlaced_frame = none ∨ f.interlaced_frame = some 0 ∨
        f.interlaced_frame = some 1 :=
      fun f hfd => hf f (List.drop_subset 20 objs hfd)
    have hc := num_interlaced_eq_count (objs.drop 20) hd
    have c0 : (((objs.drop 20).countP (fun f => f.interlaced_frame == some 1) : ℤ) = 0) ↔
        ((objs.drop 20).countP (fun f => f.interlaced_frame == some 1)) = 0 := by omega
    have c20 : (((objs.drop 20).countP (fun f => f.interlaced_frame == some 1) : ℤ) = 20) ↔
        ((objs.drop 20).countP (fun f => f.interlaced_frame == some 1)) = 20 := by omega
    have c8 : (((objs.drop 20).countP (fun f => f.interlaced_frame == some 1) : ℤ) = 8) ↔
        ((objs.drop 20).countP (fun f => f.interlaced_frame == some 1)) = 8 := by omega
    unfold get_scan_type
    rw [if_neg (by omega)]
    simp only [hc, c0, c20, c8]
    split_ifs <;> rfl

/-- Witness for C1: the 8-of-20 sample classifies as telecined. -/
theorem scan_type_classification_witness :
    (∀ f ∈ c1_objs, f.interlaced_frame = none ∨ f.interlaced_frame = some 0 ∨
      f.interlaced_frame = some 1) ∧
    get_scan_type c1_objs = some ("Telecined video") :=
  ⟨by decide, ((scan_type_classification c1_objs (by decide)).2 (by decide)).trans (by decide)⟩

/-- C10: a sampled frame object lacking the `interlaced_frame` key
contributes 0 to the interlaced count, and a 40-frame sample classifies
exactly as if that frame carried the explicit value 0 — the frame is not
an error and is not excluded from the 20-frame window. -/
theorem flagless_frame_counts_zero (pre post : List Frame) (f g : Frame)
    (hf : f.interlaced_frame = none) (hg : g.interlaced_frame = some 0) :
    num_interlaced (pre ++ f :: post) = num_interlaced (pre ++ post) ∧
    get_scan_type (pre ++ f :: post) = get_scan_type (pre ++ g :: post) := by
  have hcf : interlaced_contrib f = 0 := by simp [interlaced_contrib, hf]
  have hcg : interlaced_contrib g = 0 := by simp [interlaced_contrib, hg]
  constructor
  · simp [num_interlaced, hcf]
  · have hmap : (pre ++ f :: post).map interlaced_contrib =
        (pre ++ g :: post).map interlaced_contrib := by
      simp [hcf, hcg]
    have hlen : (pre ++ f :: post).length = (pre ++ g :: post).length := by simp
    have hnum : num_interlaced ((pre ++ f :: post).drop 20) =
        num_interlaced ((pre ++ g :: post).drop 20) := by
      unfold num_interlaced
      rw [List.map_drop, List.map_drop, hmap]
    unfold get_scan_type
    rw [hlen, hnum]

/-- Witness for C10: a flag-less frame inside a 40-frame sample counts as
zero and the classification equals the explicit-zero variant. -/
theorem flagless_frame_counts_zero_witness :
    ((⟨none⟩ : Frame).interlaced_frame = none ∧
      (⟨some 0⟩ : Frame).interlaced_frame = some 0) ∧
    (num_interlaced (c10_pre ++ (⟨none⟩ : Frame) :: c10_post) =
        num_interlaced (c10_pre ++ c10_post) ∧
      get_scan_type (c10_pre ++ (⟨none⟩ : Frame) :: c10_post) =
        get_scan_type (c10_pre ++ (⟨some 0⟩ : Frame) :: c10_post)) :=
  ⟨⟨rfl, rfl⟩, flagless_frame_counts_zero c10_pre c10_post ⟨none⟩ ⟨some 0⟩ rfl rfl⟩

/-- Counterexample to C1's sibling claim C3 as stated: 499999/20000 is
within 1e-4 of its nearest integer 25, yet the rendered text is
`"25.00 fps"`, not `"25 fps"`, because the source compares against the
truncated integer part (24), not the nearest integer. -/
theorem frame_rate_text_nearest_integer_cex :
    |(499999 : ℚ) / 20000 - 25| < 1 / 10000 ∧
    fps_text ((499999 : ℚ) / 20000) = "25.00 fps" ∧
    ("25.00 fps" : String) ≠ "25 fps" ∧
    (process_video_stream initMirrors c3_rec).map (fun p => p.1.frame_rate_text) =
      some (some ("25.00 fps")) :=
  ⟨by with_unfolding_all decide, by with_unfolding_all rfl, by decide,
    by with_unfolding_all rfl⟩

/-- C3 (amended): a non-null frame rate renders as `"<int> fps"` exactly
when it is within 1e-4 **above its integer part** (its floor, for the
nonnegative rates produced by ratio evaluation), and as `"%.2f fps"`
otherwise; in particular 24000/1001 renders as `"23.98 fps"` and 25/1 as
`"25 fps"`. -/
theorem frame_rate_text_rendering :
    (∀ fps : ℚ, 0 ≤ fps →
      (fps - (⌊fps⌋ : ℚ) < 1 / 10000 → fps_text fps = toString ⌊fps⌋ ++ " fps") ∧
      (1 / 10000 ≤ fps - (⌊fps⌋ : ℚ) → fps_text fps = fmtFixed 2 fps ++ " fps")) ∧
    evaluate_ratio ("24000/1001") = some ((24000 : ℚ) / 1001) ∧
    fps_text ((24000 : ℚ) / 1001) = "23.98 fps" ∧
    evaluate_ratio ("25/1") = some 25 ∧
    fps_text (25 : ℚ) = "25 fps" := by
  refine ⟨fun fps h0 => ?_, by with_unfolding_all rfl, by with_unfolding_all rfl,
    by with_unfolding_all rfl, by with_unfolding_all rfl⟩
  have hpi : pyInt fps = ⌊fps⌋ := if_pos h0
  have habs : |fps - (pyInt fps : ℚ)| = fps - (⌊fps⌋ : ℚ) := by
    rw [hpi]
    exact abs_of_nonneg (sub_nonneg.mpr (Int.floor_le fps))
  have hcond : (|fps - (pyInt fps : ℚ)| < 1 / 10000) ↔ (fps - (⌊fps⌋ : ℚ) < 1 / 10000) := by
    rw [habs]
  constructor
  · intro hlt
    unfold fps_text
    rw [if_pos (hcond.mpr hlt), hpi]
  · intro hge
    unfold fps_text
    rw [if_neg (fun hcc => absurd (hcond.mp hcc) (not_lt.mpr hge))]

/-- Witness for the amended C3 at 24000/1001 (fractional part ≥ 1e-4,
two-decimal rendering). -/
theorem frame_rate_text_rendering_witness :
    (0 ≤ (24000 : ℚ) / 1001 ∧
      1 / 10000 ≤ (24000 : ℚ) / 1001 - ((⌊(24000 : ℚ) / 1001⌋ : ℤ) : ℚ)) ∧
    fps_text ((24000 : ℚ) / 1001) = fmtFixed 2 ((24000 : ℚ) / 1001) ++ " fps" :=
  ⟨⟨by with_unfolding_all decide, by with_unfolding_all decide⟩,
    (frame_rate_text_rendering.1 ((24000 : ℚ) / 1001) (by with_unfolding_all decide)).2
      (by with_unfolding_all decide)⟩

/-- C8: when the record supplies no DAR string (or one that does not
evaluate), the stream's DAR is the width and height reduced by their gcd,
rendered `"<reducedW>:<reducedH>"`; in particular a 1920x1080 stream
without the key gets `dar = 16/9` and `dar_text = "16:9"`. -/
theorem dar_fallback_gcd :
    (∀ (r : RawStream) (w h : ℕ), 0 < h →
      (∀ dstr ∈ r.display_aspect_ratio, evaluate_ratio dstr = none) →
      video_dar r w h =
        some ((((w / Nat.gcd w h : ℕ) : ℚ)) / (((h / Nat.gcd w h : ℕ) : ℚ)),
          toString (w / Nat.gcd w h) ++ ":" ++ toString (h / Nat.gcd w h))) ∧
    (process_video_stream initMirrors c8_rec).map (fun p => (p.1.dar, p.1.dar_text)) =
      some (some ((16 : ℚ) / 9), some ("16:9")) := by
  refine ⟨?_, by with_unfolding_all rfl⟩
  intro r w h hpos hdar
  have hfb : dar_fallback w h =
      some ((((w / Nat.gcd w h : ℕ) : ℚ)) / (((h / Nat.gcd w h : ℕ) : ℚ)),
        toString (w / Nat.gcd w h) ++ ":" ++ toString (h / Nat.gcd w h)) := by
    unfold dar_fallback
    rw [if_neg (by omega)]
  cases hda : r.display_aspect_ratio with
  | none => simp [video_dar, hda, hfb]
  | some dstr =>
    have hnone : evaluate_ratio dstr = none := hdar dstr (by simp [hda])
    simp [video_dar, hda, hnone, hfb]

/-- Witness for C8 at the 1920x1080 record: gcd 120, reduced 16:9. -/
theorem dar_fallback_gcd_witness :
    (0 < 1080 ∧ ∀ dstr ∈ c8_rec.display_aspect_ratio, evaluate_ratio dstr = none) ∧
    video_dar c8_rec 1920 1080 =
      some ((((1920 / Nat.gcd 1920 1080 : ℕ) : ℚ)) / (((1080 / Nat.gcd 1920 1080 : ℕ) : ℚ)),
        toString (1920 / Nat.gcd 1920 1080) ++ ":" ++ toString (1080 / Nat.gcd 1920 1080)) :=
  ⟨⟨by decide, by simp [c8_rec]⟩,
    dar_fallback_gcd.1 c8_rec 1920 1080 (by decide) (by simp [c8_rec])⟩

/-- Shape of one successful `_process_video_stream` call: the stream is
video-typed with non-null dimension/DAR fields and a frame-rate text tied
to the frame rate, and each mirror is updated exactly when it was unset. -/
lemma process_video_stream_spec (m : VideoMirrors) (r : RawStream) (s : Stream)
    (m' : VideoMirrors) (h : process_video_stream m r = some (s, m')) :
    s.type = some ("video") ∧
    (∃ d, s.dimension = some d) ∧ (∃ t, s.dimension_text = some t) ∧
    (∃ q, s.dar = some q) ∧ (∃ t, s.dar_text = some t) ∧
    s.frame_rate_text = Option.map fps_text s.frame_rate ∧
    m'.dimension = (if m.dimension = none then s.dimension else m.dimension) ∧
    m'.dimension_text = (if m.dimension = none then s.dimension_text else m.dimension_text) ∧
    m'.dar = (if m.dar = none then s.dar else m.dar) ∧
    m'.dar_text = (if m.dar = none then s.dar_text else m.dar_text) ∧
    m'.frame_rate = (if m.frame_rate = none then s.frame_rate else m.frame_rate) ∧
    m'.frame_rate_text = (if m.frame_rate = none then s.frame_rate_text else m.frame_rate_text) := by
  unfold process_video_stream at h
  split at h
  · split at h
    · split at h
      · exact absurd h (by simp)
      · simp only [Option.some.injEq, Prod.mk.injEq] at h
        obtain ⟨hs, hm⟩ := h
        subst hs
        subst hm
        refine ⟨rfl, ⟨_, rfl⟩, ⟨_, rfl⟩, ⟨_, rfl⟩, ⟨_, rfl⟩, rfl, rfl, rfl, rfl, rfl, rfl, rfl⟩
    · exact absurd h (by simp)
  · exact absurd h (by simp)

/-- Shape of one successful `_process_audio_stream` call: audio-typed,
with all video-specific fields null. -/
lemma process_audio_stream_spec (r : RawStream) (s : Stream)
    (h : process_audio_stream r = some s) :
    s.type = some ("audio") ∧ s.dimension = none ∧ s.dimension_text = none ∧
    s.dar = none ∧ s.dar_text = none ∧ s.frame_rate = none ∧ s.frame_rate_text = none := by
  unfold process_audio_stream at h
  split at h
  · split at h
    · exact absurd h (by simp)
    · simp only [Option.some.injEq] at h
      subst h
      exact ⟨rfl, rfl, rfl, rfl, rfl, rfl, rfl⟩
  · exact absurd h (by simp)

/-- Shape of one successful `_process_subtitle_stream` call:
subtitle-typed, with all video-specific fields null. -/
lemma process_subtitle_stream_spec (r : RawStream) (s : Stream)
    (h : process_subtitle_stream r = some s) :
    s.type = some ("subtitle") ∧ s.dimension = none ∧ s.dimension_text = none ∧
    s.dar = none ∧ s.dar_text = none ∧ s.frame_rate = none ∧ s.frame_rate_text = none := by
  unfold process_subtitle_stream at h
  split at h
  · split at h
    · exact absurd h (by simp)
    · simp only [Option.some.injEq] at h
      subst h
      exact ⟨rfl, rfl, rfl, rfl, rfl, rfl, rfl⟩
  · exact absurd h (by simp)

/-- Shape of one successful `_process_stream` call: either the record was
a video stream (the stream is video-typed with non-null dimension and DAR
fields, frame-rate text tied to the frame rate, and each mirror updated
exactly when it was unset), or the produced stream is not video-typed,
the mirrors are untouched and all video-specific fields are null. -/
lemma process_stream_spec (m : VideoMirrors) (r : RawStream) (s : Stream)
    (m' : VideoMirrors) (h : process_stream m r = some (s, m')) :
    (s.type = some ("video") ∧
      (∃ d, s.dimension = some d) ∧ (∃ t, s.dimension_text = some t) ∧
      (∃ q, s.dar = some q) ∧ (∃ t, s.dar_text = some t) ∧
      s.frame_rate_text = Option.map fps_text s.frame_rate ∧
      m'.dimension = (if m.dimension = none then s.dimension else m.dimension) ∧
      m'.dimension_text = (if m.dimension = none then s.dimension_text else m.dimension_text) ∧
      m'.dar = (if m.dar = none then s.dar else m.dar) ∧
      m'.dar_text = (if m.dar = none then s.dar_text else m.dar_text) ∧
      m'.frame_rate = (if m.frame_rate = none then s.frame_rate else m.frame_rate) ∧
      m'.frame_rate_text =
        (if m.frame_rate = none then s.frame_rate_text else m.frame_rate_text)) ∨
    (¬ s.type = some ("video") ∧ m' = m ∧ s.dimension = none ∧ s.dimension_text = none ∧
      s.dar = none ∧ s.dar_text = none ∧ s.frame_rate = none ∧ s.frame_rate_text = none) := by
  unfold process_stream at h
  split at h
  · simp only [Option.some.injEq, Prod.mk.injEq] at h
    obtain ⟨hs, hm⟩ := h
    subst hs
    subst hm
    exact Or.inr ⟨by simp, rfl, rfl, rfl, rfl, rfl, rfl, rfl⟩
  · rename_i ct hct
    split_ifs at h with hv ha hsub
    · cases hp : process_video_stream m r with
      | none => rw [hp] at h; exact absurd h (by simp)
      | some p =>
        obtain ⟨s0, mA⟩ := p
        rw [hp] at h
        simp only [Option.some.injEq, Prod.mk.injEq] at h
        obtain ⟨hs, hm⟩ := h
        subst hs
        subst hm
        obtain ⟨hty, hd, hdt, hq1, hq2, hfrt, hu1, hu2, hu3, hu4, hu5, hu6⟩ :=
          process_video_stream_spec m r s0 mA hp
        exact Or.inl ⟨hty, hd, hdt, hq1, hq2, hfrt, hu1, hu2, hu3, hu4, hu5, hu6⟩
    · cases hp : process_audio_stream r with
      | none => rw [hp] at h; exact absurd h (by simp)
      | some s0 =>
        rw [hp] at h
        simp only [Option.some.injEq, Prod.mk.injEq] at h
        obtain ⟨hs, hm⟩ := h
        subst hs
        subst hm
        obtain ⟨hty, h1, h2, h3, h4, h5, h6⟩ := process_audio_stream_spec r s0 hp
        exact Or.inr ⟨by simp [hty], rfl, h1, h2, h3, h4, h5, h6⟩
    · cases hp : process_subtitle_stream r with
      | none => rw [hp] at h; exact absurd h (by simp)
      | some s0 =>
        rw [hp] at h
        simp only [Option.some.injEq, Prod.mk.injEq] at h
        obtain ⟨hs, hm⟩ := h
        subst hs
        subst hm
        obtain ⟨hty, h1, h2, h3, h4, h5, h6⟩ := process_subtitle_stream_spec r s0 hp
        exact Or.inr ⟨by simp [hty], rfl, h1, h2, h3, h4, h5, h6⟩
    · simp only [Option.some.injEq, Prod.mk.injEq] at h
      obtain ⟨hs, hm⟩ := h
      subst hs
      subst hm
      exact Or.inr ⟨by simp [hv], rfl, rfl, rfl, rfl, rfl, rfl, rfl⟩

/-- Invariant of the stream-processing fold: starting from mirrors `m0`
whose text fields are null whenever their value fields are, each final
mirror equals its initial value when already set, and otherwise the
corresponding field of the first video stream that supplies it. -/
lemma process_streams_mirrors (recs : List RawStream) :
    ∀ (m0 : VideoMirrors) (ss : List Stream) (m1 : VideoMirrors),
      process_streams m0 recs = some (ss, m1) →
      (m0.dimension = none → m0.dimension_text = none) →
      (m0.dar = none → m0.dar_text = none) →
      (m0.frame_rate = none → m0.frame_rate_text = none) →
      m1.dimension =
        (if m0.dimension = none then vfind ss (fun s => s.dimension) else m0.dimension) ∧
      m1.dimension_text =
        (if m0.dimension = none then vfind ss (fun s => s.dimension_text)
         else m0.dimension_text) ∧
      m1.dar = (if m0.dar = none then vfind ss (fun s => s.dar) else m0.dar) ∧
      m1.dar_text =
        (if m0.dar = none then vfind ss (fun s => s.dar_text) else m0.dar_text) ∧
      m1.frame_rate =
        (if m0.frame_rate = none then vfind ss (fun s => s.frame_rate) else m0.frame_rate) ∧
      m1.frame_rate_text =
        (if m0.frame_rate = none then vfind ss (fun s => s.frame_rate_text)
         else m0.frame_rate_text) := by
  induction recs with
  | nil =>
    intro m0 ss m1 h hcd hca hcf
    unfold process_streams at h
    simp only [Option.some.injEq, Prod.mk.injEq] at h
    obtain ⟨hs, hm⟩ := h
    subst hs
    subst hm
    refine ⟨?_, ?_, ?_, ?_, ?_, ?_⟩ <;> simp only [vfind, List.findSome?_nil] <;>
      split <;> simp_all
  | cons r rs ih =>
    intro m0 ss m1 h hcd hca hcf
    unfold process_streams at h
    cases hp : process_stream m0 r with
    | none => rw [hp] at h; exact absurd h (by simp)
    | some p =>
      obtain ⟨sA, mA⟩ := p
      rw [hp] at h
      dsimp only at h
      cases hq : process_streams mA rs with
      | none => rw [hq] at h; exact absurd h (by simp)
      | some q =>
        obtain ⟨ss', mB⟩ := q
        rw [hq] at h
        simp only [Option.some.injEq, Prod.mk.injEq] at h
        obtain ⟨hs, hm⟩ := h
        subst hs
        subst hm
        rcases process_stream_spec m0 r sA mA hp with
          ⟨hty, ⟨d, hdim⟩, ⟨dt, hdimt⟩, ⟨da, hdar⟩, ⟨dat, hdart⟩,
            hfrt, hu1, hu2, hu3, hu4, hu5, hu6⟩ | ⟨hnv, rfl, hd1, hd2, hd3, hd4, hd5, hd6⟩
        · -- video record: its fields feed vfind first
          have hcd' : mA.dimension = none → mA.dimension_text = none := by
            rw [hu1, hdim]
            intro hx
            split at hx <;> simp_all
          have hca' : mA.dar = none → mA.dar_text = none := by
            rw [hu3, hdar]
            intro hx
            split at hx <;> simp_all
          have hcf' : mA.frame_rate = none → mA.frame_rate_text = none := by
            rw [hu5, hu6, hfrt]
            intro hx
            split at hx <;> simp_all
          obtain ⟨i1, i2, i3, i4, i5, i6⟩ := ih mA ss' mB hq hcd' hca' hcf'
          have hvs : ∀ {α : Type} (proj : Stream → Option α) (v : α), proj sA = some v →
              vfind (sA :: ss') proj = some v := by
            intro α proj v hv
            simp [vfind, List.findSome?_cons, hty, hv]
          have hvn : ∀ {α : Type} (proj : Stream → Option α), proj sA = none →
              vfind (sA :: ss') proj = vfind ss' proj := by
            intro α proj hv
            simp [vfind, List.findSome?_cons, hty, hv]
          refine ⟨?_, ?_, ?_, ?_, ?_, ?_⟩
          · rw [i1, hu1, hvs (fun s => s.dimension) d hdim]
            rcases hm0 : m0.dimension with _ | x <;> simp [hm0, hdim]
          · rw [i2, hu1, hu2, hvs (fun s => s.dimension_text) dt hdimt]
            rcases hm0 : m0.dimension with _ | x <;> simp [hm0, hdim, hdimt]
          · rw [i3, hu3, hvs (fun s => s.dar) da hdar]
            rcases hm0 : m0.dar with _ | x <;> simp [hm0, hdar]
          · rw [i4, hu3, hu4, hvs (fun s => s.dar_text) dat hdart]
            rcases hm0 : m0.dar with _ | x <;> simp [hm0, hdar, hdart]
          · rw [i5, hu5]
            rcases hsf : sA.frame_rate with _ | v
            · rw [hvn (fun s => s.frame_rate) hsf]
              rcases hm0 : m0.frame_rate with _ | x <;> simp [hm0, hsf]
            · rw [hvs (fun s => s.frame_rate) v hsf]
              rcases hm0 : m0.frame_rate with _ | x <;> simp [hm0, hsf]
          · rw [i6, hu5, hu6]
            rcases hsf : sA.frame_rate with _ | v
            · rw [hvn (fun s => s.frame_rate_text) (by show sA.frame_rate_text = none; rw [hfrt, hsf]; rfl)]
              rcases hm0 : m0.frame_rate with _ | x <;> simp [hm0, hsf, hfrt]
            · rw [hvs (fun s => s.frame_rate_text) (fps_text v) (by show sA.frame_rate_text = some (fps_text v); rw [hfrt, hsf]; rfl)]
              rcases hm0 : m0.frame_rate with _ | x <;> simp [hm0, hsf, hfrt]
        · -- non-video record: mirrors untouched, stream skipped by vfind
          obtain ⟨i1, i2, i3, i4, i5, i6⟩ := ih mA ss' mB hq hcd hca hcf
          have hvc : ∀ {α : Type} (proj : Stream → Option α),
              vfind (sA :: ss') proj = vfind ss' proj := by
            intro α proj
            simp [vfind, List.findSome?_cons, if_neg hnv]
          exact ⟨by rw [i1, hvc], by rw [i2, hvc], by rw [i3, hvc],
            by rw [i4, hvc], by rw [i5, hvc], by rw [i6, hvc]⟩

/-- C2: for a Video built from a stream-record list, each container
mirror (dimension, DAR, frame rate, and their texts) equals the
corresponding field of the first video-typed stream that supplies a
non-null value for it, and once a mirror is set, processing any further
records—however their values differ—leaves it unchanged. -/
theorem first_video_stream_mirrors (recs : List RawStream) (ss : List Stream)
    (m : VideoMirrors) (h : process_streams initMirrors recs = some (ss, m)) :
    (m.dimension = vfind ss (fun s => s.dimension) ∧
      m.dimension_text = vfind ss (fun s => s.dimension_text) ∧
      m.dar = vfind ss (fun s => s.dar) ∧
      m.dar_text = vfind ss (fun s => s.dar_text) ∧
      m.frame_rate = vfind ss (fun s => s.frame_rate) ∧
      m.frame_rate_text = vfind ss (fun s => s.frame_rate_text)) ∧
    (∀ (m0 : VideoMirrors) (recs2 : List RawStream) (ss2 : List Stream) (m2 : VideoMirrors),
      process_streams m0 recs2 = some (ss2, m2) →
      (m0.dimension = none → m0.dimension_text = none) →
      (m0.dar = none → m0.dar_text = none) →
      (m0.frame_rate = none → m0.frame_rate_text = none) →
      (m0.dimension ≠ none →
        m2.dimension = m0.dimension ∧ m2.dimension_text = m0.dimension_text) ∧
      (m0.dar ≠ none → m2.dar = m0.dar ∧ m2.dar_text = m0.dar_text) ∧
      (m0.frame_rate ≠ none →
        m2.frame_rate = m0.frame_rate ∧ m2.frame_rate_text = m0.frame_rate_text)) := by
  constructor
  · obtain ⟨i1, i2, i3, i4, i5, i6⟩ :=
      process_streams_mirrors recs initMirrors ss m h
        (fun _ => rfl) (fun _ => rfl) (fun _ => rfl)
    refine ⟨?_, ?_, ?_, ?_, ?_, ?_⟩ <;> simp_all [initMirrors]
  · intro m0 recs2 ss2 m2 h2 hcd hca hcf
    obtain ⟨i1, i2, i3, i4, i5, i6⟩ := process_streams_mirrors recs2 m0 ss2 m2 h2 hcd hca hcf
    exact ⟨fun hne => ⟨by rw [i1, if_neg hne], by rw [i2, if_neg hne]⟩,
      fun hne => ⟨by rw [i3, if_neg hne], by rw [i4, if_neg hne]⟩,
      fun hne => ⟨by rw [i5, if_neg hne], by rw [i6, if_neg hne]⟩⟩

/-- Witness for C2 on `c2_recs`: the mirrors equal the first video
stream's fields even though the third record differs. -/
theorem first_video_stream_mirrors_witness :
    (process_streams initMirrors c2_recs = some (c2_pair.1, c2_pair.2)) ∧
    (c2_pair.2.dimension = vfind c2_pair.1 (fun s => s.dimension) ∧
      c2_pair.2.dimension_text = vfind c2_pair.1 (fun s => s.dimension_text) ∧
      c2_pair.2.dar = vfind c2_pair.1 (fun s => s.dar) ∧
      c2_pair.2.dar_text = vfind c2_pair.1 (fun s => s.dar_text) ∧
      c2_pair.2.frame_rate = vfind c2_pair.1 (fun s => s.frame_rate) ∧
      c2_pair.2.frame_rate_text = vfind c2_pair.1 (fun s => s.frame_rate_text)) :=
  ⟨by with_unfolding_all rfl,
    (first_video_stream_mirrors c2_recs c2_pair.1 c2_pair.2 (by with_unfolding_all rfl)).1⟩

/-- `reduceOption` peels one optional entry into its `toList`. -/
lemma reduceOption_cons_toList {α : Type} (x : Option α) (l : List (Option α)) :
    (x :: l).reduceOption = x.toList ++ l.reduceOption := by
  cases x <;> simp

/-- The truthiness-gated line block equals the `toList` of its optional
line. -/
lemma pyOptLine_toList (o : Option String) (pre : String) :
    pyOptLine o pre = (optLineStr o pre).toList := by
  cases o with
  | none => rfl
  | some t =>
    dsimp only [pyOptLine, optLineStr]
    split_ifs <;> rfl

/-- The frame-rate line block equals the `toList` of its optional line. -/
lemma pyFrameLine_toList (fr : Option ℚ) (frt : Option String) :
    pyFrameLine fr frt = (optFrameLine fr frt).toList := by
  cases fr with
  | none => rfl
  | some q =>
    dsimp only [pyFrameLine, optFrameLine]
    split_ifs <;> rfl

/-- The checksum line block equals the `toList` of its optional line. -/
lemma incLine_toList (inc : Bool) (x : String) :
    (if inc then [x] else []) = ((if inc then some x else none) : Option String).toList := by
  cases inc <;> rfl

/-- Counterexample to C9 as stated: `c9_video` has the non-null title
`some ""`, yet its report omits the Title line, so the report differs
from the null-omission rendering of the same Video. -/
theorem report_null_omission_cex :
    c9_video.title = some ("") ∧ ¬ c9_video.title = none ∧
    format_metadata c9_video false ≠ report_null c9_video false :=
  ⟨by with_unfolding_all rfl, by with_unfolding_all decide, by with_unfolding_all decide⟩

/-- C9 (amended): the formatted report lists the fields in the fixed
order title, filename, size, optional checksum, format, duration,
dimension, DAR, scan type, frame rate, then one line per stream from its
info string; a field line is omitted exactly when its value is null or
Python-falsy (empty title/text, zero frame rate); surrounding whitespace
is stripped. -/
theorem format_report_structure (v : VideoMeta) (inc : Bool) :
    format_metadata v inc = report_falsy v inc := by
  have hl : format_metadata_lines v inc = report_lines_falsy v inc := by
    unfold format_metadata_lines report_lines_falsy
    simp only [reduceOption_cons_toList, List.reduceOption_nil, pyOptLine_toList,
      pyFrameLine_toList, incLine_toList, Option.toList_some, List.append_assoc,
      List.nil_append, List.append_nil, List.cons_append, List.singleton_append]
  unfold format_metadata report_falsy
  rw [hl]

end Storyboard
